import Mathlib

/-!
Verification of the contact-form validation and submission flow of the
`create-t3-turbo` repository, as implemented in
`apps/nextjs/src/app/example/_components/contact-form.hook.ts`.

The schema there is

  const ContactFormSchema = z.object({
    name: z.string().min(1, "Name is required"),
    email: z.string().email("Invalid email address"),
    message: z.string().min(10, "Message must be at least 10 characters"),
  });

and the hook wires it to a `@tanstack/react-form` controller with an
`onSubmit` validator, a `submitted` boolean flag set by the submit handler,
and a `handleReset` callback that resets the form and clears the flag.

We embed the schema as executable Lean functions on `String`
(`String.length` standing for JavaScript string length; all strings in the
claims are ASCII, where the two notions agree), the form state as a
structure of three fields plus the `submitted` flag, and the controller
operations (`setField`, `blurField`, `submit`, `reset`) as pure state
transformers.
-/

namespace ContactForm

/-- Character class `[A-Za-z0-9_'+\-\.]` of the local part of zod's
default email regular expression. -/
def isLocalChar (c : Char) : Bool :=
  c.isAlpha || c.isDigit || c = '_' || c = '\'' || c = '+' || c = '-' || c = '.'

/-- Character class `[A-Za-z0-9_+-]` required of the final character of the
local part (no trailing dot or apostrophe). -/
def isLocalEndChar (c : Char) : Bool :=
  c.isAlpha || c.isDigit || c = '_' || c = '+' || c = '-'

/-- Character class `[A-Za-z0-9]` allowed to start a domain label. -/
def isLabelStart (c : Char) : Bool :=
  c.isAlpha || c.isDigit

/-- Character class `[A-Za-z0-9\-]` of the non-initial characters of a
domain label. -/
def isLabelChar (c : Char) : Bool :=
  c.isAlpha || c.isDigit || c = '-'

/-- `(?!.*\.\.)`: the string contains no two consecutive dots. -/
def noDoubleDot : List Char → Bool
  | [] => true
  | [_] => true
  | c₁ :: c₂ :: rest => !(c₁ = '.' && c₂ = '.') && noDoubleDot (c₂ :: rest)

/-- The local part `(?!\.)([A-Za-z0-9_'+\-\.]*)[A-Za-z0-9_+-]`: nonempty,
made of local characters, not starting with a dot, and ending in a
character that is neither a dot nor an apostrophe. -/
def localOk (l : List Char) : Bool :=
  match l with
  | [] => false
  | c :: _ =>
    (!(c = '.')) && l.all isLocalChar &&
      (match l.getLast? with
       | some e => isLocalEndChar e
       | none => false)

/-- One domain label `[A-Za-z0-9][A-Za-z0-9\-]*`. -/
def labelOk (l : List Char) : Bool :=
  match l with
  | [] => false
  | c :: rest => isLabelStart c && rest.all isLabelChar

/-- The top-level-domain part `[A-Za-z]{2,}`. -/
def tldOk (l : List Char) : Bool :=
  decide (2 ≤ l.length) && l.all Char.isAlpha

/-- Split a character list at every dot (dots are separators and are
dropped; empty components are kept). -/
def splitOnDot : List Char → List (List Char)
  | [] => [[]]
  | c :: rest =>
    if c = '.' then [] :: splitOnDot rest
    else
      match splitOnDot rest with
      | [] => [[c]]
      | p :: ps => (c :: p) :: ps

/-- The domain part `([A-Za-z0-9][A-Za-z0-9\-]*\.)+[A-Za-z]{2,}`: at least
one label followed by a dot, then a purely alphabetic top-level domain of
length at least two. -/
def domainOk (l : List Char) : Bool :=
  let parts := splitOnDot l
  decide (2 ≤ parts.length) && parts.dropLast.all labelOk &&
    (match parts.getLast? with
     | some t => tldOk t
     | none => false)

/-- Split a character list at its first `'@'`, returning the parts before
and after it, or `none` if there is no `'@'`. -/
def splitFirstAt : List Char → Option (List Char × List Char)
  | [] => none
  | c :: rest =>
    if c = '@' then some ([], rest)
    else
      match splitFirstAt rest with
      | none => none
      | some (a, b) => some (c :: a, b)

/-- Zod's default email predicate (identical in zod 3.22.3+ and zod 4):

  `/^(?!\.)(?!.*\.\.)([A-Za-z0-9_'+\-\.]*)[A-Za-z0-9_+-]@([A-Za-z0-9][A-Za-z0-9\-]*\.)+[A-Za-z]{2,}$/i`

A string matches exactly when it splits at a unique `'@'` into a valid
local part and a valid dotted domain, with no two consecutive dots
anywhere. -/
def zodEmailMatch (s : String) : Bool :=
  match splitFirstAt s.toList with
  | none => false
  | some (loc, dom) =>
    (!(dom.contains '@')) && noDoubleDot s.toList && localOk loc && domainOk dom

/-- `z.string().min(1, "Name is required")` applied to the name field:
the error list produced for a candidate name. -/
def nameErrors (s : String) : List String :=
  if s.length < 1 then ["Name is required"] else []

/-- `z.string().email("Invalid email address")` applied to the email
field: the error list produced for a candidate email address. -/
def emailErrors (s : String) : List String :=
  if zodEmailMatch s then [] else ["Invalid email address"]

/-- `z.string().min(10, "Message must be at least 10 characters")` applied
to the message field: the error list produced for a candidate message. -/
def messageErrors (s : String) : List String :=
  if s.length < 10 then ["Message must be at least 10 characters"] else []

/-- A candidate `{name, email, message}` record, the input of
`ContactFormSchema`. -/
structure ContactRecord where
  name : String
  email : String
  message : String
deriving Repr, DecidableEq

/-- Per-field error output of one validation pass of
`ContactFormSchema`. -/
structure FieldErrors where
  name : List String
  email : List String
  message : List String
deriving Repr, DecidableEq

/-- `ContactFormSchema.safeParse` viewed as a map from the record to the
per-field error lists: `z.object` checks every field independently and
collects all issues (no short-circuit). -/
def validateContact (r : ContactRecord) : FieldErrors :=
  { name := nameErrors r.name
    email := emailErrors r.email
    message := messageErrors r.message }

/-- One input's lifecycle state in the form controller: the draft value,
the touched flag, and the error list of the last validation pass. -/
structure FormField where
  value : String
  touched : Bool
  errors : List String
deriving Repr, DecidableEq

/-- Aggregate state of the contact form: the three fields plus the
`submitted` flag held by `useContactForm`'s `useState`. -/
structure ContactFormState where
  name : FormField
  email : FormField
  message : FormField
  submitted : Bool
deriving Repr, DecidableEq

/-- A field as created by `defaultValues`: empty, untouched, no errors. -/
def initialField : FormField :=
  { value := "", touched := false, errors := [] }

/-- The creation-time state of the form: all fields empty, untouched and
error-free, `submitted = false`. -/
def initialState : ContactFormState :=
  { name := initialField, email := initialField, message := initialField
    submitted := false }

/-- The three field identifiers of the form. -/
inductive FieldName where
  | name
  | email
  | message
deriving Repr, DecidableEq

/-- `field.handleChange`: replace one field's draft value; no validation
runs and no other state changes. -/
def setField (s : ContactFormState) (f : FieldName) (v : String) :
    ContactFormState :=
  match f with
  | .name => { s with name := { s.name with value := v } }
  | .email => { s with email := { s.email with value := v } }
  | .message => { s with message := { s.message with value := v } }

/-- `field.handleBlur`: mark one field touched; no other state changes. -/
def blurField (s : ContactFormState) (f : FieldName) : ContactFormState :=
  match f with
  | .name => { s with name := { s.name with touched := true } }
  | .email => { s with email := { s.email with touched := true } }
  | .message => { s with message := { s.message with touched := true } }

/-- The current snapshot of the three field values, the record handed to
`ContactFormSchema` on submit. -/
def valuesOf (s : ContactFormState) : ContactRecord :=
  { name := s.name.value, email := s.email.value, message := s.message.value }

/-- Whether a validation output accepts the whole record. -/
def allValid (e : FieldErrors) : Bool :=
  e.name.isEmpty && e.email.isEmpty && e.message.isEmpty

/-- `form.handleSubmit()`: run `ContactFormSchema` over the snapshot of
all field values, store each field's error list, mark every field touched;
when every field passed, `onSubmit` fires and sets `submitted := true`,
otherwise the `submitted` flag is left as it was. -/
def submit (s : ContactFormState) : ContactFormState :=
  let e := validateContact (valuesOf s)
  { name := { s.name with touched := true, errors := e.name }
    email := { s.email with touched := true, errors := e.email }
    message := { s.message with touched := true, errors := e.message }
    submitted := if allValid e then true else s.submitted }

/-- `handleReset`: `form.reset()` restores `defaultValues` (clearing
values, touched flags and errors) and `setSubmitted(false)` clears the
flag, regardless of the current state. -/
def reset (_ : ContactFormState) : ContactFormState :=
  initialState

/-- Length of a string after removing leading and trailing whitespace,
the quantity the specification calls the trimmed length (JavaScript
`s.trim().length`). Executable counterpart used to state claims about
whitespace-only strings. -/
def trimmedLength (s : String) : Nat :=
  ((s.toList.dropWhile Char.isWhitespace).reverse.dropWhile
    Char.isWhitespace).length

/-! ## Supporting lemmas -/

theorem splitFirstAt_append {l : List Char} :
    ∀ {a b : List Char}, splitFirstAt l = some (a, b) →
      l = a ++ '@' :: b ∧ '@' ∉ a := by
  induction l with
  | nil =>
    intro a b h
    simp [splitFirstAt] at h
  | cons c rest ih =>
    intro a b h
    unfold splitFirstAt at h
    by_cases hc : c = '@'
    · rw [if_pos hc] at h
      obtain ⟨ha, hb⟩ := Prod.mk.injEq .. ▸ Option.some.inj h
      subst ha; subst hb
      simp [hc]
    · rw [if_neg hc] at h
      cases hsp : splitFirstAt rest with
      | none => rw [hsp] at h; exact absurd h (by simp)
      | some p =>
        obtain ⟨a₀, b₀⟩ := p
        rw [hsp] at h
        obtain ⟨ha, hb⟩ := Prod.mk.injEq .. ▸ Option.some.inj h
        subst ha; subst hb
        obtain ⟨hrest, hmem⟩ := ih hsp
        refine ⟨by rw [hrest]; simp, ?_⟩
        intro hmem'
        rcases List.mem_cons.mp hmem' with h' | h'
        · exact hc h'.symm
        · exact hmem h'

theorem splitOnDot_ne_nil (l : List Char) : splitOnDot l ≠ [] := by
  cases l with
  | nil => simp [splitOnDot]
  | cons c rest =>
    unfold splitOnDot
    by_cases hc : c = '.'
    · rw [if_pos hc]; simp
    · rw [if_neg hc]
      cases splitOnDot rest <;> simp

theorem dot_mem_of_two_parts {l : List Char}
    (h : 2 ≤ (splitOnDot l).length) : '.' ∈ l := by
  induction l with
  | nil => simp [splitOnDot] at h
  | cons c rest ih =>
    by_cases hc : c = '.'
    · rw [hc]; exact List.mem_cons_self _ _
    · unfold splitOnDot at h
      rw [if_neg hc] at h
      cases hsp : splitOnDot rest with
      | nil => exact absurd hsp (splitOnDot_ne_nil rest)
      | cons p ps =>
        rw [hsp] at h
        simp only [List.length_cons] at h
        have : 2 ≤ (splitOnDot rest).length := by
          rw [hsp]; simpa using h
        exact List.mem_cons_of_mem c (ih this)

theorem localOk_ne_nil {l : List Char} (h : localOk l = true) : l ≠ [] := by
  cases l with
  | nil => simp [localOk] at h
  | cons c rest => simp

theorem domainOk_dot {l : List Char} (h : domainOk l = true) : '.' ∈ l := by
  unfold domainOk at h
  simp only [Bool.and_eq_true, decide_eq_true_eq] at h
  exact dot_mem_of_two_parts h.1.1

/-! ## Claim theorems -/

/-- Claim C1: if `submit()` is invoked while all three fields are valid
(name non-empty, email matching the email shape, message of length at
least 10), the form transitions to `submitted = true` with every field's
error list empty. -/
theorem submit_valid_submits (s : ContactFormState)
    (hn : 1 ≤ s.name.value.length)
    (he : zodEmailMatch s.email.value = true)
    (hm : 10 ≤ s.message.value.length) :
    (submit s).submitted = true ∧ (submit s).name.errors = [] ∧
      (submit s).email.errors = [] ∧ (submit s).message.errors = [] := by
  have h₁ : nameErrors s.name.value = [] := by
    unfold nameErrors; rw [if_neg (by omega)]
  have h₂ : emailErrors s.email.value = [] := by
    unfold emailErrors; rw [if_pos he]
  have h₃ : messageErrors s.message.value = [] := by
    unfold messageErrors; rw [if_neg (by omega)]
  refine ⟨?_, h₁, h₂, h₃⟩
  show (if allValid (validateContact (valuesOf s)) = true then true
    else s.submitted) = true
  rw [if_pos]
  unfold allValid validateContact valuesOf
  simp [h₁, h₂, h₃]

/-- Witness for C1: submitting `{name: "Jane Doe",
email: "jane@example.com", message: "This is a valid test message"}` from
the initial state yields `submitted = true` with all errors empty. -/
theorem submit_valid_submits_witness :
    (submit (setField (setField (setField initialState
        FieldName.name "Jane Doe")
        FieldName.email "jane@example.com")
        FieldName.message "This is a valid test message")).submitted
      = true ∧
    (submit (setField (setField (setField initialState
        FieldName.name "Jane Doe")
        FieldName.email "jane@example.com")
        FieldName.message "This is a valid test message")).name.errors
      = [] ∧
    (submit (setField (setField (setField initialState
        FieldName.name "Jane Doe")
        FieldName.email "jane@example.com")
        FieldName.message "This is a valid test message")).email.errors
      = [] ∧
    (submit (setField (setField (setField initialState
        FieldName.name "Jane Doe")
        FieldName.email "jane@example.com")
        FieldName.message "This is a valid test message")).message.errors
      = [] :=
  submit_valid_submits _ (by decide) (by decide) (by decide)

/-- Claim C2: from any editing state in which at least one field fails its
validation rule, `submit()` never sets `submitted = true`; the stored
error list of each field is exactly the validator's output for that field
(so fields that passed receive an empty list). -/
theorem submit_invalid_stays_editing (s : ContactFormState)
    (hsub : s.submitted = false)
    (hinv : nameErrors s.name.value ≠ [] ∨ emailErrors s.email.value ≠ [] ∨
      messageErrors s.message.value ≠ []) :
    (submit s).submitted = false ∧
      (submit s).name.errors = nameErrors s.name.value ∧
      (submit s).email.errors = emailErrors s.email.value ∧
      (submit s).message.errors = messageErrors s.message.value := by
  have hval : allValid (validateContact (valuesOf s)) = false := by
    apply Bool.eq_false_iff.mpr
    intro h
    unfold allValid validateContact valuesOf at h
    simp only [Bool.and_eq_true, List.isEmpty_iff] at h
    rcases hinv with h₁ | h₁ | h₁
    · exact h₁ h.1.1
    · exact h₁ h.1.2
    · exact h₁ h.2
  refine ⟨?_, rfl, rfl, rfl⟩
  show (if allValid (validateContact (valuesOf s)) = true then true
    else s.submitted) = false
  rw [hval]
  simpa using hsub

/-- Witness for C2: submitting the all-empty initial state leaves
`submitted = false` and stores each field's validator output. -/
theorem submit_invalid_stays_editing_witness :
    (submit initialState).submitted = false ∧
      (submit initialState).name.errors = nameErrors "" ∧
      (submit initialState).email.errors = emailErrors "" ∧
      (submit initialState).message.errors = messageErrors "" :=
  submit_invalid_stays_editing initialState rfl (Or.inl (by decide))

/-- Counterexample to claim C3 as stated: the single-space string has
trimmed length 0 (it is whitespace-only), yet validating a record with
`name = " "` produces no name error at all, not the required
`["Name is required"]` — `z.string().min(1)` measures the raw, untrimmed
length. -/
theorem name_whitespace_passes :
    trimmedLength " " = 0 ∧
      (validateContact ⟨" ", "jane@example.com",
        "This is a valid test message"⟩).name = [] ∧
      (validateContact ⟨" ", "jane@example.com",
        "This is a valid test message"⟩).name ≠ ["Name is required"] := by
  refine ⟨by decide, by decide, by decide⟩

/-- Claim C3 (amended): the name field fails with exactly
`["Name is required"]` when the raw string length is 0 (the empty
string), and passes with no error for every string of positive raw
length — including whitespace-only strings. -/
theorem nameErrors_iff_empty (s : String) :
    (s.length = 0 → nameErrors s = ["Name is required"]) ∧
      (0 < s.length → nameErrors s = []) := by
  constructor
  · intro h; unfold nameErrors; rw [if_pos (by omega)]
  · intro h; unfold nameErrors; rw [if_neg (by omega)]

/-- Witness for the amended C3 at the empty string and at a whitespace
string. -/
theorem nameErrors_iff_empty_witness :
    nameErrors "" = ["Name is required"] ∧ nameErrors " " = [] :=
  ⟨(nameErrors_iff_empty "").1 (by decide),
    (nameErrors_iff_empty " ").2 (by decide)⟩

/-- Claim C4: a string that does not match the email shape yields exactly
the error `["Invalid email address"]`, and a matching string passes with
no email error; moreover every matching string does have the claimed
shape local-part `"@"` domain-with-dot (nonempty local part without `'@'`,
a single `'@'`, and a domain containing a dot). -/
theorem emailErrors_shape (s : String) :
    (zodEmailMatch s = false → emailErrors s = ["Invalid email address"]) ∧
      (zodEmailMatch s = true → emailErrors s = []) ∧
      (zodEmailMatch s = true →
        ∃ loc dom : List Char, s.toList = loc ++ '@' :: dom ∧
          loc ≠ [] ∧ '@' ∉ loc ∧ '@' ∉ dom ∧ '.' ∈ dom) := by
  refine ⟨fun h => ?_, fun h => ?_, fun h => ?_⟩
  · unfold emailErrors; rw [h]; rfl
  · unfold emailErrors; rw [if_pos h]
  · unfold zodEmailMatch at h
    cases hsp : splitFirstAt s.toList with
    | none => rw [hsp] at h; exact absurd h (by simp)
    | some p =>
      obtain ⟨loc, dom⟩ := p
      rw [hsp] at h
      simp only [Bool.and_eq_true, Bool.not_eq_true'] at h
      obtain ⟨⟨⟨hat, _⟩, hloc⟩, hdom⟩ := h
      obtain ⟨hshape, hnoat⟩ := splitFirstAt_append hsp
      refine ⟨loc, dom, hshape, localOk_ne_nil hloc, hnoat, ?_,
        domainOk_dot hdom⟩
      intro hmem
      simp [hmem] at hat

/-- Witness for C4: `"not-an-email"` is rejected with exactly the email
error, and `"jane@example.com"` passes and decomposes as local-part,
`'@'`, dotted domain. -/
theorem emailErrors_shape_witness :
    emailErrors "not-an-email" = ["Invalid email address"] ∧
      emailErrors "jane@example.com" = [] ∧
      (∃ loc dom : List Char,
        ("jane@example.com").toList = loc ++ '@' :: dom ∧
          loc ≠ [] ∧ '@' ∉ loc ∧ '@' ∉ dom ∧ '.' ∈ dom) :=
  ⟨(emailErrors_shape "not-an-email").1 (by decide),
    (emailErrors_shape "jane@example.com").2.1 (by decide),
    (emailErrors_shape "jane@example.com").2.2 (by decide)⟩

/-- Claim C5: the message field fails with exactly
`["Message must be at least 10 characters"]` when the raw (untrimmed)
string length is strictly less than 10, and passes with no error when the
length is at least 10. -/
theorem messageErrors_length (s : String) :
    (s.length < 10 →
      messageErrors s = ["Message must be at least 10 characters"]) ∧
      (10 ≤ s.length → messageErrors s = []) := by
  constructor
  · intro h; unfold messageErrors; rw [if_pos h]
  · intro h; unfold messageErrors; rw [if_neg (by omega)]

/-- Witness for C5 at a 5-character and a 28-character message. -/
theorem messageErrors_length_witness :
    messageErrors "short" = ["Message must be at least 10 characters"] ∧
      messageErrors "This is a valid test message" = [] :=
  ⟨(messageErrors_length "short").1 (by decide),
    (messageErrors_length "This is a valid test message").2 (by decide)⟩

/-- Claim C6: validation is all-fields-at-once with no short-circuit —
for every record the result carries each field's own error list, computed
from that field alone; submitting the form with all three fields empty
stores all three error messages simultaneously in the single resulting
state. -/
theorem validate_all_fields_at_once :
    (∀ r : ContactRecord, validateContact r =
      ⟨nameErrors r.name, emailErrors r.email, messageErrors r.message⟩) ∧
      validateContact ⟨"", "", ""⟩ =
        ⟨["Name is required"], ["Invalid email address"],
          ["Message must be at least 10 characters"]⟩ ∧
      (submit initialState).name.errors = ["Name is required"] ∧
      (submit initialState).email.errors = ["Invalid email address"] ∧
      (submit initialState).message.errors =
        ["Message must be at least 10 characters"] :=
  ⟨fun _ => rfl, by decide, by decide, by decide, by decide⟩

/-- Claim C7: `reset()` from every state (reachable or not) yields the
creation-time initial state: all values `""`, all touched flags `false`,
all error lists `[]`, and `submitted = false`. -/
theorem reset_restores_initial (s : ContactFormState) :
    reset s = initialState ∧
      reset s = ⟨⟨"", false, []⟩, ⟨"", false, []⟩, ⟨"", false, []⟩, false⟩ :=
  ⟨rfl, rfl⟩

/-- Claim C8: the schema validator is a pure deterministic function —
evaluating it twice on one input gives identical output both times, and
identical inputs give identical outputs. -/
theorem validateContact_deterministic (r r' : ContactRecord) (h : r = r') :
    validateContact r = validateContact r ∧
      validateContact r = validateContact r' :=
  ⟨rfl, by rw [h]⟩

/-- Witness for C8 at a concrete record. -/
theorem validateContact_deterministic_witness :
    validateContact ⟨"Jane Doe", "jane@example.com",
        "This is a valid test message"⟩ =
      validateContact ⟨"Jane Doe", "jane@example.com",
        "This is a valid test message"⟩ ∧
      validateContact ⟨"Jane Doe", "jane@example.com",
          "This is a valid test message"⟩ =
        validateContact ⟨"Jane Doe", "jane@example.com",
          "This is a valid test message"⟩ :=
  validateContact_deterministic _ _ rfl

/-- Claim C9: a failing `submit()` does not change any field's value —
with some field invalid, every field's value after `submit()` equals its
value before. -/
theorem submit_preserves_values (s : ContactFormState)
    (_hinv : nameErrors s.name.value ≠ [] ∨
      emailErrors s.email.value ≠ [] ∨
      messageErrors s.message.value ≠ []) :
    (submit s).name.value = s.name.value ∧
      (submit s).email.value = s.email.value ∧
      (submit s).message.value = s.message.value :=
  ⟨rfl, rfl, rfl⟩

/-- Witness for C9 at the all-empty initial state, whose name field is
invalid. -/
theorem submit_preserves_values_witness :
    (submit initialState).name.value = initialState.name.value ∧
      (submit initialState).email.value = initialState.email.value ∧
      (submit initialState).message.value = initialState.message.value :=
  submit_preserves_values initialState (Or.inl (by decide))

/-- Claim C10: each field has exactly one validation rule, so after every
validation pass each field's error list has length at most one. -/
theorem validation_errors_at_most_one (r : ContactRecord) :
    (validateContact r).name.length ≤ 1 ∧
      (validateContact r).email.length ≤ 1 ∧
      (validateContact r).message.length ≤ 1 := by
  refine ⟨?_, ?_, ?_⟩
  · show (nameErrors r.name).length ≤ 1
    unfold nameErrors; split <;> simp
  · show (emailErrors r.email).length ≤ 1
    unfold emailErrors; split <;> simp
  · show (messageErrors r.message).length ≤ 1
    unfold messageErrors; split <;> simp

end ContactForm
